import Mathlib

/-!
Verification of the sil-opt driver (src/tools/sil-opt/SILOpt.cpp).

The file shallowly embeds the driver: the closed `PassKind` enumeration and the
dispatch switch of `runCommandLineSelectedPasses`, the optimization-group
selection, the SIL-option construction from command-line flags, and the control
flow of `main` as an event trace.  Components of the original project that are
declared in headers but whose bodies are not part of this tree (the pass
manager's run loop and the diagnostic verifier) are modelled from the design
specification and marked as such in their doc comments.
-/

namespace SILOpt

/-- The closed pass enumeration, from `enum class PassKind` (SILOpt.cpp lines
37-72), in source order. -/
inductive PassKind
  | AllocBoxToStack
  | CapturePromotion
  | DiagnosticCCP
  | PerformanceCCP
  | CSE
  | DefiniteInit
  | NoReturn
  | DiagnoseUnreachable
  | DataflowDiagnostics
  | GlobalOpt
  | InOutDeshadowing
  | MandatoryInlining
  | PredictableMemoryOpt
  | SILCleanup
  | SILMem2Reg
  | SILCombine
  | SILDeadFunctionElimination
  | SILSpecialization
  | SILDevirt
  | SimplifyCFG
  | PerformanceInlining
  | CodeMotion
  | LowerAggregateInstrs
  | SROA
  | ARCOpts
  | StripDebugInfo
  | DeadObjectElimination
  | InstCount
  | AADumper
  | LoadStoreOpts
  | SILLinker
  | GlobalARCOpts
  | DCE
  | EnumSimplification
  deriving DecidableEq, Repr

/-- The optimization-group option, from `enum class OptGroup` (lines 74-76);
the command-line option defaults to `Unknown` (line 110). -/
inductive OptGroup
  | Unknown
  | Diagnostics
  | Performance
  deriving DecidableEq, Repr

/-- One pass-factory entry point of the pass library.  Each constructor names
one `create*` function invoked by the dispatch switch in
`runCommandLineSelectedPasses` (lines 286-389). -/
inductive Factory
  | createAllocBoxToStack
  | createCapturePromotion
  | createDiagnosticConstantPropagation
  | createPerformanceConstantPropagation
  | createCSE
  | createNoReturnFolding
  | createDiagnoseUnreachable
  | createDefiniteInitialization
  | createEmitDFDiagnostics
  | createInOutDeshadowing
  | createGlobalOpt
  | createMandatoryInlining
  | createPredictableMemoryOptimizations
  | createSILCleanup
  | createMem2Reg
  | createSILCombine
  | createDeadFunctionElimination
  | createGenericSpecializer
  | createDevirtualization
  | createSimplifyCFG
  | createPerfInliner
  | createCodeMotion
  | createLowerAggregate
  | createSROA
  | createARCOpts
  | createStripDebug
  | createDeadObjectElimination
  | createSILInstCount
  | createSILAADumper
  | createLoadStoreOpts
  | createSILLinker
  | createGlobalARCOpts
  | createDCE
  | createEnumSimplification
  deriving DecidableEq, Repr

/-- The dispatch switch of `runCommandLineSelectedPasses` (lines 286-389):
each `case PassKind::X:` performs exactly one `PM.add(createY())`.  The switch
has no default branch; the match below is exhaustive for the same reason. -/
def factoryFor : PassKind → Factory
  | .AllocBoxToStack => .createAllocBoxToStack
  | .CapturePromotion => .createCapturePromotion
  | .DiagnosticCCP => .createDiagnosticConstantPropagation
  | .PerformanceCCP => .createPerformanceConstantPropagation
  | .CSE => .createCSE
  | .NoReturn => .createNoReturnFolding
  | .DiagnoseUnreachable => .createDiagnoseUnreachable
  | .DefiniteInit => .createDefiniteInitialization
  | .DataflowDiagnostics => .createEmitDFDiagnostics
  | .InOutDeshadowing => .createInOutDeshadowing
  | .GlobalOpt => .createGlobalOpt
  | .MandatoryInlining => .createMandatoryInlining
  | .PredictableMemoryOpt => .createPredictableMemoryOptimizations
  | .SILCleanup => .createSILCleanup
  | .SILMem2Reg => .createMem2Reg
  | .SILCombine => .createSILCombine
  | .SILDeadFunctionElimination => .createDeadFunctionElimination
  | .SILSpecialization => .createGenericSpecializer
  | .SILDevirt => .createDevirtualization
  | .SimplifyCFG => .createSimplifyCFG
  | .PerformanceInlining => .createPerfInliner
  | .CodeMotion => .createCodeMotion
  | .LowerAggregateInstrs => .createLowerAggregate
  | .SROA => .createSROA
  | .ARCOpts => .createARCOpts
  | .StripDebugInfo => .createStripDebug
  | .DeadObjectElimination => .createDeadObjectElimination
  | .InstCount => .createSILInstCount
  | .AADumper => .createSILAADumper
  | .LoadStoreOpts => .createLoadStoreOpts
  | .SILLinker => .createSILLinker
  | .GlobalARCOpts => .createGlobalARCOpts
  | .DCE => .createDCE
  | .EnumSimplification => .createEnumSimplification

/-- The analyses registered with the pass manager (lines 282-284). -/
inductive AnalysisKind
  | callGraph
  | aliasInfo
  | dominance
  deriving DecidableEq, Repr

/-- One mutation of the pass manager performed by
`runCommandLineSelectedPasses` before `PM.run()`: an analysis registration
(`PM.registerAnalysis`) or a pass addition (`PM.add`). -/
inductive PMAction
  | registerAnalysis (k : AnalysisKind)
  | add (f : Factory)
  deriving DecidableEq, Repr

/-- Whether a pass-manager action is a `PM.add`. -/
def PMAction.isAdd : PMAction → Bool
  | .add _ => true
  | .registerAnalysis _ => false

/-- `runCommandLineSelectedPasses` (lines 278-392) as the ordered sequence of
pass-manager mutations it performs before calling `PM.run()`: it registers the
call-graph, alias, and dominance analyses (lines 282-284), then loops over the
command-line pass list and, per element, dispatches through the switch to
exactly one `PM.add` (lines 285-390). -/
def runCommandLineSelectedPasses (passes : List PassKind) : List PMAction :=
  [PMAction.registerAnalysis .callGraph,
   PMAction.registerAnalysis .aliasInfo,
   PMAction.registerAnalysis .dominance]
  ++ passes.map (fun p => PMAction.add (factoryFor p))

/-- Modelled from the spec: the pass manager's run loop (declared in
`swift/SILPasses/PassManager.h`, body not in this tree) iterates the ordered
sequence of added pass instances and runs each in order (spec section 4.4,
step 1).  Given the action list handed to the manager, the passes executed are
the `PM.add` payloads, in order. -/
def executedPasses (actions : List PMAction) : List Factory :=
  actions.filterMap (fun a =>
    match a with
    | .add f => some f
    | .registerAnalysis _ => none)

/-- The analyses registered by an action list, in order. -/
def registeredAnalyses (actions : List PMAction) : List AnalysisKind :=
  actions.filterMap (fun a =>
    match a with
    | .registerAnalysis k => some k
    | .add _ => none)

/-- The pipeline selected by `main` (lines 491-497): a preset group runs the
library preset (`runSILDiagnosticPasses` / `runSILOptimizationPasses`, bodies
not in this tree, taken as fixed opaque presets), and only the `else` branch
runs the command-line-selected passes. -/
inductive Pipeline
  | presetDiagnostics
  | presetPerformance
  | explicitPasses (actions : List PMAction)
  deriving DecidableEq, Repr

/-- The group dispatch of `main` (lines 491-497): `Diagnostics` and
`Performance` run their preset; everything else (i.e. `Unknown`) runs
`runCommandLineSelectedPasses` on the `Passes` command-line list. -/
def selectPipeline (group : OptGroup) (passes : List PassKind) : Pipeline :=
  if group = OptGroup.Diagnostics then
    Pipeline.presetDiagnostics
  else if group = OptGroup.Performance then
    Pipeline.presetPerformance
  else
    Pipeline.explicitPasses (runCommandLineSelectedPasses passes)

/-- The `SILOptions` fields set by `main` (lines 483-489). -/
structure SILOptions where
  inlineThreshold : Nat
  devirtThreshold : Nat
  verifyAll : Bool
  printAll : Bool
  removeRuntimeAsserts : Bool
  assertConfig : Nat
  deriving DecidableEq, Repr

/-- The command-line options of the driver that the claims depend on.  Each
optional field is `none` when the caller did not pass the flag, in which case
the `llvm::cl::init` default applies (see `buildSILOptions`). -/
structure CLIOptions where
  verifyMode : Bool
  optimizationGroup : OptGroup
  passes : List PassKind
  enableSILVerifyAll : Option Bool
  enableSILPrintAll : Option Bool
  silInlineThreshold : Option Nat
  silDevirtThreshold : Option Nat
  removeRuntimeAsserts : Option Bool
  assertConfId : Option Nat
  deriving DecidableEq, Repr

/-- Lines 483-489 of `main`, together with the `llvm::cl::init` defaults of
the option declarations: `SILInlineThreshold` defaults to 50 (line 240),
`SILDevirtThreshold` to 0 (line 244), `EnableSILVerifyAll` to true (line 249),
`EnableSILPrintAll` to false (line 261), `RemoveRuntimeAsserts` to false
(line 255), `AssertConfId` to 0 (line 236). -/
def buildSILOptions (opts : CLIOptions) : SILOptions :=
  { inlineThreshold := opts.silInlineThreshold.getD 50
    devirtThreshold := opts.silDevirtThreshold.getD 0
    verifyAll := opts.enableSILVerifyAll.getD true
    printAll := opts.enableSILPrintAll.getD false
    removeRuntimeAsserts := opts.removeRuntimeAsserts.getD false
    assertConfig := opts.assertConfId.getD 0 }

/-- The behavior of the external collaborators during one run of `main`:
whether the input file fails to open (line 433), whether `CI.setup` fails
(line 459), whether parsing/sema left an error diagnostic (`hadError()`,
line 464), whether opening the output stream fails (line 502), the value of
`hadError()` re-queried after the pipeline (line 510), the verdict returned by
`verifyDiagnostics` (line 515), and whether a pass inside the pipeline hard-
fails (invisible to the driver: `runCommandLineSelectedPasses` and the preset
runners return `void`). -/
structure Env where
  inputOpenFails : Bool
  setupFails : Bool
  semaHadError : Bool
  outputOpenError : Bool
  hadErrorAfterPasses : Bool
  verifierVerdict : Bool
  passHardFailure : Bool
  deriving DecidableEq, Repr

/-- Observable steps of `main` after command-line parsing, in execution
order: installing the diagnostic verifier (line 481), running the selected
pipeline with the built `SILOptions` (lines 491-497), failing to open the
output stream (lines 502-506), printing the module (line 507), and finalizing
the verifier via `verifyDiagnostics` (line 515). -/
inductive Event
  | enableVerifier
  | runPipeline (p : Pipeline) (so : SILOptions)
  | openOutputFailed
  | printModule
  | finalizeVerifier
  deriving DecidableEq, Repr

/-- The control flow of `main` (lines 401-519) as the ordered trace of
observable events plus the process result.  Early exits: input-open failure
calls `exit(-1)` (line 435), `CI.setup` failure returns 1 (line 460), a
pre-existing sema error returns 1 before anything else happens (lines
463-465).  Otherwise the verifier is installed when in verify mode (lines
480-481), the SIL options are built (lines 483-489), the pipeline dispatched
(lines 491-497); an output-stream error then returns 1 (lines 499-506);
otherwise the module is printed (line 507), `HadError` is read (line 510) and,
in verify mode, fully replaced by the verifier verdict (lines 514-515), and
`HadError` is returned (line 518). -/
def mainRun (opts : CLIOptions) (env : Env) : List Event × Int :=
  if env.inputOpenFails then
    ([], -1)
  else if env.setupFails then
    ([], 1)
  else if env.semaHadError then
    ([], 1)
  else
    let pre : List Event := if opts.verifyMode then [Event.enableVerifier] else []
    let so := buildSILOptions opts
    let p := selectPipeline opts.optimizationGroup opts.passes
    let events := pre ++ [Event.runPipeline p so]
    if env.outputOpenError then
      (events ++ [Event.openOutputFailed], 1)
    else
      let events := events ++ [Event.printModule]
      if opts.verifyMode then
        (events ++ [Event.finalizeVerifier],
         if env.verifierVerdict then 1 else 0)
      else
        (events, if env.hadErrorAfterPasses then 1 else 0)

/-- The pipeline run by a trace, if any (the trace of `mainRun` contains at
most one `runPipeline` event). -/
def selectedPipeline (events : List Event) : Option Pipeline :=
  (events.filterMap (fun ev =>
    match ev with
    | .runPipeline p _ => some p
    | _ => none)).head?

/-- The `SILOptions` handed to the pipeline by a trace, if any. -/
def silOptionsUsed (events : List Event) : Option SILOptions :=
  (events.filterMap (fun ev =>
    match ev with
    | .runPipeline _ so => some so
    | _ => none)).head?

/-- A source location of a diagnostic (buffer, line, column). -/
structure SourceLoc where
  buffer : Nat
  line : Nat
  column : Nat
  deriving DecidableEq, Repr

/-- Diagnostic severity. -/
inductive Severity
  | error
  | warning
  | note
  deriving DecidableEq, Repr

/-- An actually emitted diagnostic: severity, location, message. -/
structure DiagnosticRecord where
  severity : Severity
  loc : SourceLoc
  message : String
  deriving DecidableEq, Repr

/-- An expectation mined from an input annotation: severity, location, and a
message pattern (a substring the actual message must contain). -/
structure ExpectedDiagnostic where
  severity : Severity
  loc : SourceLoc
  pattern : String
  deriving DecidableEq, Repr

/-- Whether `pat` occurs at the head of `s`. -/
def headMatch : List Char → List Char → Bool
  | [], _ => true
  | _ :: _, [] => false
  | a :: as, b :: bs => a = b && headMatch as bs

/-- Whether `pat` occurs anywhere in `s`. -/
def hasSub (pat : List Char) : List Char → Bool
  | [] => headMatch pat []
  | c :: cs => headMatch pat (c :: cs) || hasSub pat cs

/-- Whether a diagnostic message satisfies an expectation's pattern
(substring containment). -/
def msgSatisfies (message pat : String) : Bool :=
  hasSub pat.toList message.toList

/-- Modelled from the spec: an actual diagnostic matches an expected entry
when it has the same severity, the same location, and its message satisfies
the pattern (spec section 4.5).  The matcher itself, `verifyDiagnostics`, is
declared in `swift/Frontend/DiagnosticVerifier.h`, whose body is not in this
tree. -/
def matchesExpected (d : DiagnosticRecord) (e : ExpectedDiagnostic) : Bool :=
  d.severity = e.severity && d.loc = e.loc && msgSatisfies d.message e.pattern

/-- Remove the first actual diagnostic matching `e` from the pool; `none`
when no actual matches. -/
def removeFirstMatch (e : ExpectedDiagnostic) :
    List DiagnosticRecord → Option (List DiagnosticRecord)
  | [] => none
  | d :: ds =>
    if matchesExpected d e then
      some ds
    else
      (removeFirstMatch e ds).map (fun r => d :: r)

/-- Modelled from the spec: the verifier's matching loop.  Each expected entry
consumes exactly one matching actual diagnostic from the pool; an expected
entry with no match is collected as unmatched-expected, and the actual
diagnostics left over at the end are the unmatched-actuals (spec section
4.5). Returns (unmatched expected, unmatched actual). -/
def matchDiags : List ExpectedDiagnostic → List DiagnosticRecord →
    List ExpectedDiagnostic × List DiagnosticRecord
  | [], ds => ([], ds)
  | e :: es, ds =>
    match removeFirstMatch e ds with
    | some ds' => matchDiags es ds'
    | none =>
      let r := matchDiags es ds
      (e :: r.1, r.2)

/-- One verification failure: either an expected entry no actual diagnostic
matched, or an actual diagnostic no expected entry matched.  The two kinds
are distinct constructors, never merged. -/
inductive VerifyFailure
  | unmatchedExpected (e : ExpectedDiagnostic)
  | unmatchedActual (d : DiagnosticRecord)
  deriving DecidableEq, Repr

/-- Modelled from the spec: the list of verification failures reported for a
run, one per unmatched expected entry and one per unmatched actual diagnostic
(spec section 4.5). -/
def verificationFailures (expected : List ExpectedDiagnostic)
    (actual : List DiagnosticRecord) : List VerifyFailure :=
  let r := matchDiags expected actual
  r.1.map VerifyFailure.unmatchedExpected ++ r.2.map VerifyFailure.unmatchedActual

/-- Modelled from the spec: the verifier's overall verdict — the run succeeds
iff there is no unmatched expected entry and no unmatched actual diagnostic
(spec section 4.5). -/
def verifyOK (expected : List ExpectedDiagnostic)
    (actual : List DiagnosticRecord) : Bool :=
  let r := matchDiags expected actual
  r.1.isEmpty && r.2.isEmpty

/-- Whether every `SILOptions` value in an optional slot has `verifyAll`
set. -/
def allVerifyAll (o : Option SILOptions) : Bool :=
  o.all (fun so => so.verifyAll)

/-- Baseline command-line configuration: no flag set beyond its default. -/
def defaultOpts : CLIOptions :=
  { verifyMode := false
    optimizationGroup := OptGroup.Unknown
    passes := []
    enableSILVerifyAll := none
    enableSILPrintAll := none
    silInlineThreshold := none
    silDevirtThreshold := none
    removeRuntimeAsserts := none
    assertConfId := none }

/-- Baseline configuration with verify mode on. -/
def verifyOpts : CLIOptions :=
  { defaultOpts with verifyMode := true }

/-- Configuration supplying both a preset group and an explicit pass list. -/
def bothOpts : CLIOptions :=
  { defaultOpts with
      optimizationGroup := OptGroup.Diagnostics
      passes := [PassKind.CSE, PassKind.DCE] }

/-- Clean environment: every external step succeeds, no diagnostics. -/
def cleanEnv : Env :=
  { inputOpenFails := false
    setupFails := false
    semaHadError := false
    outputOpenError := false
    hadErrorAfterPasses := false
    verifierVerdict := false
    passHardFailure := false }

/-- Environment in which parsing/sema left an error diagnostic. -/
def semaErrEnv : Env :=
  { cleanEnv with semaHadError := true }

/-- Environment in which opening the output stream fails. -/
def outFailEnv : Env :=
  { cleanEnv with outputOpenError := true }

/-- The pipeline event of a `mainRun` trace is absent exactly on the early
exits and otherwise carries the group-dispatched pipeline. -/
theorem selectedPipeline_mainRun (opts : CLIOptions) (env : Env) :
    selectedPipeline (mainRun opts env).1 =
      if env.inputOpenFails || env.setupFails || env.semaHadError then none
      else some (selectPipeline opts.optimizationGroup opts.passes) := by
  cases hi : env.inputOpenFails <;> cases hs : env.setupFails <;>
    cases hm : env.semaHadError <;> cases hv : opts.verifyMode <;>
      cases ho : env.outputOpenError <;>
        simp [mainRun, selectedPipeline, hi, hs, hm, hv, ho]

/-- The options event of a `mainRun` trace is absent exactly on the early
exits and otherwise carries `buildSILOptions opts`. -/
theorem silOptionsUsed_mainRun (opts : CLIOptions) (env : Env) :
    silOptionsUsed (mainRun opts env).1 =
      if env.inputOpenFails || env.setupFails || env.semaHadError then none
      else some (buildSILOptions opts) := by
  cases hi : env.inputOpenFails <;> cases hs : env.setupFails <;>
    cases hm : env.semaHadError <;> cases hv : opts.verifyMode <;>
      cases ho : env.outputOpenError <;>
        simp [mainRun, silOptionsUsed, hi, hs, hm, hv, ho]

/-- Claim C1: when a preset group (Diagnostics or Performance) is supplied,
the group is honored and the explicit pass list is ignored — the pipeline
dispatched is the group's preset, identical for any explicit list, with none
of the listed passes added; the explicit list is used only when the group is
Unknown, and the pipeline a run of `main` executes is exactly the dispatched
one. -/
theorem group_takes_precedence (opts : CLIOptions) (env : Env)
    (alt : List PassKind) (hg : opts.optimizationGroup ≠ OptGroup.Unknown) :
    selectPipeline opts.optimizationGroup opts.passes
      = selectPipeline opts.optimizationGroup alt
    ∧ (opts.optimizationGroup = OptGroup.Diagnostics →
        selectPipeline opts.optimizationGroup opts.passes
          = Pipeline.presetDiagnostics)
    ∧ (opts.optimizationGroup = OptGroup.Performance →
        selectPipeline opts.optimizationGroup opts.passes
          = Pipeline.presetPerformance)
    ∧ selectPipeline OptGroup.Unknown opts.passes
        = Pipeline.explicitPasses (runCommandLineSelectedPasses opts.passes)
    ∧ (selectedPipeline (mainRun opts env).1 = none
        ∨ selectedPipeline (mainRun opts env).1
            = some (selectPipeline opts.optimizationGroup opts.passes)) := by
  refine ⟨?_, ?_, ?_, rfl, ?_⟩
  · cases h : opts.optimizationGroup <;> simp [selectPipeline, h] at hg ⊢
  · intro h; simp [selectPipeline, h]
  · intro h; simp [selectPipeline, h]
  · rw [selectedPipeline_mainRun]
    by_cases h : (env.inputOpenFails || env.setupFails || env.semaHadError) = true
    · left; simp [h]
    · right; simp [h]

/-- Witness for C1 at a run supplying both the Diagnostics group and the
explicit list [CSE, DCE]. -/
theorem group_takes_precedence_witness :
    selectPipeline bothOpts.optimizationGroup bothOpts.passes
      = selectPipeline bothOpts.optimizationGroup []
    ∧ (bothOpts.optimizationGroup = OptGroup.Diagnostics →
        selectPipeline bothOpts.optimizationGroup bothOpts.passes
          = Pipeline.presetDiagnostics)
    ∧ (bothOpts.optimizationGroup = OptGroup.Performance →
        selectPipeline bothOpts.optimizationGroup bothOpts.passes
          = Pipeline.presetPerformance)
    ∧ selectPipeline OptGroup.Unknown bothOpts.passes
        = Pipeline.explicitPasses (runCommandLineSelectedPasses bothOpts.passes)
    ∧ (selectedPipeline (mainRun bothOpts cleanEnv).1 = none
        ∨ selectedPipeline (mainRun bothOpts cleanEnv).1
            = some (selectPipeline bothOpts.optimizationGroup bothOpts.passes)) :=
  group_takes_precedence bothOpts cleanEnv [] (by decide)

/-- Claim C2: when parsing/sema already emitted an error diagnostic, `main`
returns 1 immediately with an empty event trace — no pass is dispatched, the
pipeline stage is never entered, and the module is never printed. -/
theorem sema_error_refuses_to_run (opts : CLIOptions) (env : Env)
    (h1 : env.inputOpenFails = false) (h2 : env.setupFails = false)
    (h3 : env.semaHadError = true) :
    mainRun opts env = ([], 1) := by
  simp [mainRun, h1, h2, h3]

/-- Witness for C2 at the default options and a sema-error environment. -/
theorem sema_error_refuses_to_run_witness :
    mainRun defaultOpts semaErrEnv = ([], 1) :=
  sema_error_refuses_to_run defaultOpts semaErrEnv rfl rfl rfl

/-- Claim C3: for every run reaching the end of the pipeline, the returned
result is derived from the verifier verdict in verify mode (fully replacing
the standard error flag) and from the error flag otherwise. -/
theorem final_had_error_derivation (opts : CLIOptions) (env : Env)
    (h1 : env.inputOpenFails = false) (h2 : env.setupFails = false)
    (h3 : env.semaHadError = false) (h4 : env.outputOpenError = false) :
    (mainRun opts env).2 =
      (if (if opts.verifyMode then env.verifierVerdict
           else env.hadErrorAfterPasses)
       then (1 : Int) else 0) := by
  cases hv : opts.verifyMode <;> simp [mainRun, h1, h2, h3, h4, hv]

/-- Witness for C3: in verify mode with a failing verdict but no standard
error flag, the run returns 1 — the verdict replaces the flag. -/
theorem final_had_error_derivation_witness :
    (mainRun verifyOpts { cleanEnv with verifierVerdict := true }).2 = 1 := by
  have h := final_had_error_derivation verifyOpts
    { cleanEnv with verifierVerdict := true } rfl rfl rfl rfl
  simpa using h

/-- Claim C4 counterexample: on the pre-existing-semantic-error fatal path
the module is not handed to the printer — `main` returns 1 with an empty
trace, so no `printModule` event occurs, contradicting "the final module is
always handed to the serialization/printing collaborator". -/
theorem module_not_printed_on_sema_error :
    Event.printModule ∉ (mainRun defaultOpts semaErrEnv).1
    ∧ (mainRun defaultOpts semaErrEnv).2 = 1 := by
  decide

/-- Claim C4 amended: the module is handed to the printer in every run that
reaches the pipeline stage and whose output stream opens successfully —
regardless of pass hard failures or error diagnostics produced inside the
pipeline; runs that fail setup, have a pre-existing semantic error, or fail
to open the output exit without printing. -/
theorem module_printed_when_pipeline_reached (opts : CLIOptions) (env : Env)
    (h1 : env.inputOpenFails = false) (h2 : env.setupFails = false)
    (h3 : env.semaHadError = false) (h4 : env.outputOpenError = false) :
    Event.printModule ∈ (mainRun opts env).1 := by
  cases hv : opts.verifyMode <;> simp [mainRun, h1, h2, h3, h4, hv]

/-- Witness for the amended C4: a run with a pass hard failure and an error
flag set still prints the module. -/
theorem module_printed_when_pipeline_reached_witness :
    Event.printModule ∈
      (mainRun defaultOpts
        { cleanEnv with passHardFailure := true,
                        hadErrorAfterPasses := true }).1 :=
  module_printed_when_pipeline_reached defaultOpts
    { cleanEnv with passHardFailure := true, hadErrorAfterPasses := true }
    rfl rfl rfl rfl

/-- Claim C5: for every explicit pass list, the pass manager executes exactly
one pass instance per listed identifier, in the listed order (the executed
sequence is the identifier-wise image under the dispatch), and the empty list
runs no pass at all. -/
theorem explicit_list_exact_passes (ps : List PassKind) :
    executedPasses (runCommandLineSelectedPasses ps) = ps.map factoryFor
    ∧ (executedPasses (runCommandLineSelectedPasses ps)).length = ps.length
    ∧ executedPasses (runCommandLineSelectedPasses []) = [] := by
  have step : ∀ l : List PassKind,
      executedPasses (l.map (fun p => PMAction.add (factoryFor p)))
        = l.map factoryFor := by
    intro l
    induction l with
    | nil => rfl
    | cons a l ih =>
      simpa [executedPasses, List.filterMap_cons] using ih
  have key : executedPasses (runCommandLineSelectedPasses ps)
      = ps.map factoryFor := by
    have h := step ps
    simp only [executedPasses, runCommandLineSelectedPasses,
      List.filterMap_append] at h ⊢
    simpa using h
  exact ⟨key, by rw [key]; simp, rfl⟩

/-- Claim C6: pass resolution is total over the closed `PassKind` set — the
dispatch switch maps every identifier to exactly one factory invocation: a
single-identifier run performs exactly one `PM.add`, carrying that
identifier's factory. -/
theorem pass_dispatch_total (k : PassKind) :
    executedPasses (runCommandLineSelectedPasses [k]) = [factoryFor k]
    ∧ (executedPasses (runCommandLineSelectedPasses [k])).length = 1 := by
  cases k <;> exact ⟨rfl, rfl⟩

/-- Claim C7 counterexample: in verify mode, when opening the output stream
fails after the pipeline has run, `main` returns 1 with the verifier still
installed and never finalized — an exit path following the pipeline on which
the captured diagnostics are not reduced to a verdict. -/
theorem verifier_unfinalized_on_output_error :
    Event.enableVerifier ∈ (mainRun verifyOpts outFailEnv).1
    ∧ Event.runPipeline (selectPipeline OptGroup.Unknown [])
        (buildSILOptions verifyOpts) ∈ (mainRun verifyOpts outFailEnv).1
    ∧ Event.finalizeVerifier ∉ (mainRun verifyOpts outFailEnv).1
    ∧ (mainRun verifyOpts outFailEnv).2 = 1 := by
  decide

/-- Claim C7 amended: in verify mode the verifier is installed before the
pipeline runs (the trace starts with `enableVerifier` followed by the
pipeline event), and the captured diagnostics are finalized into a verdict
exactly on the runs whose output stream opens successfully; the
output-open-failure exit leaves the verifier unfinalized. -/
theorem verifier_scoped_amended (opts : CLIOptions) (env : Env)
    (h1 : env.inputOpenFails = false) (h2 : env.setupFails = false)
    (h3 : env.semaHadError = false) (hv : opts.verifyMode = true) :
    (mainRun opts env).1.take 2 =
      [Event.enableVerifier,
       Event.runPipeline (selectPipeline opts.optimizationGroup opts.passes)
         (buildSILOptions opts)]
    ∧ (Event.finalizeVerifier ∈ (mainRun opts env).1
        ↔ env.outputOpenError = false) := by
  cases ho : env.outputOpenError <;> simp [mainRun, h1, h2, h3, hv, ho]

/-- Witness for the amended C7 at verify mode in a clean environment. -/
theorem verifier_scoped_amended_witness :
    (mainRun verifyOpts cleanEnv).1.take 2 =
      [Event.enableVerifier,
       Event.runPipeline
         (selectPipeline verifyOpts.optimizationGroup verifyOpts.passes)
         (buildSILOptions verifyOpts)]
    ∧ (Event.finalizeVerifier ∈ (mainRun verifyOpts cleanEnv).1
        ↔ cleanEnv.outputOpenError = false) :=
  verifier_scoped_amended verifyOpts cleanEnv rfl rfl rfl rfl

/-- Claim C9: per-pass structural verification defaults to on — when the
caller does not set `enable-sil-verify-all`, the built `SILOptions` has
`verifyAll = true`, and so does the options value handed to whichever
pipeline a run of `main` executes. -/
theorem verify_all_default_on (opts : CLIOptions) (env : Env)
    (h : opts.enableSILVerifyAll = none) :
    (buildSILOptions opts).verifyAll = true
    ∧ allVerifyAll (silOptionsUsed (mainRun opts env).1) = true := by
  have hb : (buildSILOptions opts).verifyAll = true := by
    simp [buildSILOptions, h]
  refine ⟨hb, ?_⟩
  rw [silOptionsUsed_mainRun]
  by_cases hc : (env.inputOpenFails || env.setupFails || env.semaHadError) = true
  · simp [hc, allVerifyAll]
  · simp [hc, allVerifyAll, hb]

/-- Witness for C9 at the default options in a clean environment. -/
theorem verify_all_default_on_witness :
    (buildSILOptions defaultOpts).verifyAll = true
    ∧ allVerifyAll (silOptionsUsed (mainRun defaultOpts cleanEnv).1) = true :=
  verify_all_default_on defaultOpts cleanEnv rfl

/-- Claim C10: every explicit-list run registers exactly the call-graph,
alias, and dominance analyses, in that order, and all three registrations
precede every pass addition — the action sequence is the three registrations
followed by a suffix consisting only of `PM.add` actions. -/
theorem analyses_registered_before_passes (ps : List PassKind) :
    registeredAnalyses (runCommandLineSelectedPasses ps)
      = [AnalysisKind.callGraph, AnalysisKind.aliasInfo, AnalysisKind.dominance]
    ∧ runCommandLineSelectedPasses ps
      = [PMAction.registerAnalysis AnalysisKind.callGraph,
         PMAction.registerAnalysis AnalysisKind.aliasInfo,
         PMAction.registerAnalysis AnalysisKind.dominance]
        ++ ps.map (fun p => PMAction.add (factoryFor p))
    ∧ (ps.map (fun p => PMAction.add (factoryFor p))).all PMAction.isAdd
        = true := by
  refine ⟨?_, rfl, ?_⟩
  · simp [registeredAnalyses, runCommandLineSelectedPasses,
      List.filterMap_append, List.filterMap_map, Function.comp, List.filterMap]
  · simp [List.all_eq_true, PMAction.isAdd]

/-- Removing a matched actual diagnostic shrinks the pool by exactly one. -/
theorem removeFirstMatch_length (e : ExpectedDiagnostic) :
    ∀ ds ds', removeFirstMatch e ds = some ds' →
      ds.length = ds'.length + 1 := by
  intro ds
  induction ds with
  | nil =>
    intro ds' h
    simp [removeFirstMatch] at h
  | cons d rest ih =>
    intro ds' h
    by_cases hm : matchesExpected d e = true
    · simp [removeFirstMatch, hm] at h
      simp [← h]
    · simp [removeFirstMatch, hm] at h
      obtain ⟨r, hr, hds⟩ := h
      have := ih r hr
      simp [← hds, this]

/-- Conservation of the matching loop: every expected entry that is not left
unmatched consumes exactly one actual diagnostic. -/
theorem matchDiags_length (es : List ExpectedDiagnostic) :
    ∀ ds, es.length + (matchDiags es ds).2.length
        = ds.length + (matchDiags es ds).1.length := by
  induction es with
  | nil =>
    intro ds
    simp [matchDiags]
  | cons e es ih =>
    intro ds
    cases hr : removeFirstMatch e ds with
    | none =>
      have h := ih ds
      simp [matchDiags, hr]
      omega
    | some ds' =>
      have h := ih ds'
      have hlen := removeFirstMatch_length e ds ds' hr
      simp [matchDiags, hr]
      omega

/-- Claim C8: the verification verdict is the two-sided conjunction — the run
succeeds iff no expected entry is left unmatched and no actual diagnostic is
left unmatched; the reported failures are one distinct entry per unmatched
expected and one per unmatched actual; and each matched expected entry
consumed exactly one actual diagnostic (length conservation). -/
theorem verify_two_sided_conjunction (expected : List ExpectedDiagnostic)
    (actual : List DiagnosticRecord) :
    (verifyOK expected actual = true ↔
      (matchDiags expected actual).1 = [] ∧ (matchDiags expected actual).2 = [])
    ∧ verificationFailures expected actual
        = (matchDiags expected actual).1.map VerifyFailure.unmatchedExpected
          ++ (matchDiags expected actual).2.map VerifyFailure.unmatchedActual
    ∧ (verificationFailures expected actual).length
        = (matchDiags expected actual).1.length
          + (matchDiags expected actual).2.length
    ∧ expected.length + (matchDiags expected actual).2.length
        = actual.length + (matchDiags expected actual).1.length := by
  refine ⟨?_, rfl, ?_, matchDiags_length expected actual⟩
  · simp [verifyOK, List.isEmpty_iff]
  · simp [verificationFailures]

end SILOpt
